import Mathlib

/-!
Verification of the Dialogflow policy-enforcer Cloud Function (src/main.py)
against its natural-language specification.

The Python source is shallowly embedded: every repository function becomes a
Lean function of the same name; the remote Dialogflow API is modelled as an
explicit state (`ApiState`) threaded through the functions, together with a
trace of the remote calls issued (`List ApiCall`); Python exceptions become
`Except PyErr`; Python's `None` and `False` return values become explicit
constructors of the result type `Ret`.
-/

namespace PolicyEnforcer

/-- Python's substring test `need in hay`, on exploded character lists:
true iff `need` occurs contiguously inside `hay`. -/
def pyInAux (need : List Char) : List Char → Bool
  | [] => need.isEmpty
  | a :: rest => need.isPrefixOf (a :: rest) || pyInAux need rest

/-- Python's `sub in s` for strings. -/
def pyIn (sub s : String) : Bool := pyInAux sub.toList s.toList

/-- Python's truthiness of a string: `bool(s)` is `True` iff `s` is non-empty.
Needed because line 107 of main.py tests a string constant, not a membership. -/
def pyTruthy (s : String) : Bool := !(s == "")

/-- Python's `s.split(sep)` for a one-character separator, on exploded
character lists: split at every occurrence, keeping empty segments. -/
def pySplitAux (sep : Char) : List Char → List Char → List (List Char)
  | [], acc => [acc.reverse]
  | c :: rest, acc =>
    if c = sep then acc.reverse :: pySplitAux sep rest []
    else pySplitAux sep rest (c :: acc)

/-- Python's `s.split(sep)` for a one-character separator. -/
def pySplit (sep : Char) (s : String) : List String :=
  (pySplitAux sep s.toList []).map String.mk

/-- The `logging_settings` sub-message of a CX agent's advanced settings
(fields `enable_stackdriver_logging` and `enable_interaction_logging`). -/
structure LoggingSettings where
  enable_stackdriver_logging : Bool
  enable_interaction_logging : Bool
deriving DecidableEq

/-- A CX agent's `advanced_settings` message. Besides `logging_settings` it
carries non-logging sub-fields, represented by `audio_export_gcs_destination`
(default-empty when the message is freshly constructed). -/
structure AdvancedSettings where
  logging_settings : LoggingSettings
  audio_export_gcs_destination : String := ""
deriving DecidableEq

/-- A Dialogflow CX agent resource. `display_name` stands for the agent's
fields outside `advanced_settings`. -/
structure Agent where
  name : String
  display_name : String
  advanced_settings : AdvancedSettings
deriving DecidableEq

/-- The `generic_web_service` configuration of a webhook or fulfillment.
`request_headers` stands for the credential-bearing fields that
delete_webhook_credentials does NOT scrub (noted as a TODO in the source). -/
structure GenericWebService where
  username : String
  password : String
  request_headers : String
deriving DecidableEq

/-- A Dialogflow CX webhook resource. `display_name` stands for the webhook's
fields outside `generic_web_service`. -/
structure Webhook where
  name : String
  generic_web_service : GenericWebService
  display_name : String
deriving DecidableEq

/-- A Dialogflow ES fulfillment resource. -/
structure Fulfillment where
  name : String
  generic_web_service : GenericWebService
deriving DecidableEq

/-- One remote Dialogflow API call, as observed on the wire: the endpoint it
was sent to plus the request payload relevant to the specification. -/
inductive ApiCall where
  | getAgent (endpoint name : String)
  | updateAgent (endpoint : String) (agent : Agent) (update_mask : List String)
  | setAgentES (endpoint : String) (enable_logging : Bool) (parent : String)
      (update_mask : List String)
  | getWebhook (endpoint name : String)
  | updateWebhook (endpoint : String) (webhook : Webhook) (update_mask : List String)
  | listWebhooks (endpoint parent : String)
  | listAgents (endpoint parent : String)
  | updateFulfillment (endpoint : String) (fulfillment : Fulfillment)
      (update_mask : List String)
deriving DecidableEq

/-- The remote API's state: resource stores keyed by resource name, plus the
parent-to-children listings consulted by the list calls. -/
structure ApiState where
  agents : String → Agent
  webhooks : String → Webhook
  fulfillments : String → Fulfillment
  agentList : String → List String
  webhookList : String → List String

/-- Point update of a function store. -/
def setStore {α : Type} (s : String → α) (k : String) (v : α) : String → α :=
  fun k2 => if k2 = k then v else s k2

/-- Server-side semantics of a masked webhook update: only the fields whose
paths appear in the mask are copied from the request onto the stored resource
(the documented FieldMask partial-update contract of the external API). -/
def applyWebhookMask (stored req : Webhook) (mask : List String) : Webhook :=
  { name := stored.name
    generic_web_service :=
      { username :=
          if mask.contains "generic_web_service.username" then
            req.generic_web_service.username
          else stored.generic_web_service.username
        password :=
          if mask.contains "generic_web_service.password" then
            req.generic_web_service.password
          else stored.generic_web_service.password
        request_headers :=
          if mask.contains "generic_web_service.request_headers" then
            req.generic_web_service.request_headers
          else stored.generic_web_service.request_headers }
    display_name :=
      if mask.contains "display_name" then req.display_name
      else stored.display_name }

/-- Server-side semantics of a masked agent update (the path
"advanced_settings" masks the whole advanced-settings message). -/
def applyAgentMask (stored req : Agent) (mask : List String) : Agent :=
  { name := stored.name
    display_name :=
      if mask.contains "display_name" then req.display_name
      else stored.display_name
    advanced_settings :=
      if mask.contains "advanced_settings" then req.advanced_settings
      else stored.advanced_settings }

/-- Server-side semantics of a masked fulfillment update. -/
def applyFulfillmentMask (stored req : Fulfillment) (mask : List String) :
    Fulfillment :=
  { name := stored.name
    generic_web_service :=
      { username :=
          if mask.contains "generic_web_service.username" then
            req.generic_web_service.username
          else stored.generic_web_service.username
        password :=
          if mask.contains "generic_web_service.password" then
            req.generic_web_service.password
          else stored.generic_web_service.password
        request_headers :=
          if mask.contains "generic_web_service.request_headers" then
            req.generic_web_service.request_headers
          else stored.generic_web_service.request_headers } }

/-- The remote update_webhook endpoint: applies the masked request to the
stored resource named by the request and returns the updated resource. -/
def api_update_webhook (s : ApiState) (req : Webhook) (mask : List String) :
    Webhook × ApiState :=
  let stored := s.webhooks req.name
  let updated := applyWebhookMask stored req mask
  (updated, { s with webhooks := setStore s.webhooks req.name updated })

/-- The remote update_agent endpoint, masked-update semantics as above. -/
def api_update_agent (s : ApiState) (req : Agent) (mask : List String) :
    Agent × ApiState :=
  let stored := s.agents req.name
  let updated := applyAgentMask stored req mask
  (updated, { s with agents := setStore s.agents req.name updated })

/-- The remote update_fulfillment endpoint, masked-update semantics. -/
def api_update_fulfillment (s : ApiState) (req : Fulfillment)
    (mask : List String) : Fulfillment × ApiState :=
  let stored := s.fulfillments req.name
  let updated := applyFulfillmentMask stored req mask
  (updated, { s with fulfillments := setStore s.fulfillments req.name updated })

/-- Python exceptions that the handler can raise. `malformedEvent` stands for
any failure of base64 decoding, UTF-8 decoding or JSON parsing of the
envelope's data field (library calls, modelled as a single failure). -/
inductive PyErr where
  | malformedEvent
  | keyError (key : String)
  | indexError
deriving DecidableEq

/-- The decoded pubsub JSON record, restricted to the four access paths the
source reads. Each `Option` is `none` when the corresponding JSON path is
absent (a Python access of it raises KeyError). -/
structure PubsubJson where
  method : Option String
  currentLocations : Option (List String)
  resourceName : Option String
  requestParent : Option String

/-- Python return value of execute_policy_enforcer: a modified resource, a
list of modified resources, Python `None` (a branch without a return
statement), or the literal `return False` of the unmatched-operation branch. -/
inductive Ret where
  | webhook (w : Webhook)
  | webhooks (ws : List Webhook)
  | agent (a : Agent)
  | agents (l : List Agent)
  | noneVal
  | falseVal
deriving DecidableEq

/-- main.py line 22: module-level Dialogflow logging policy constant. -/
def log_policy : Bool := true

/-- main.py lines 116-129 (get_client_option): "global" maps to the bare
domain, any other region is used as a hyphenated host prefix. The returned
ClientOptions is represented by its api_endpoint string. -/
def get_client_option (region : String) : String :=
  let region2 := if region = "global" then "" else region ++ "-"
  region2 ++ "dialogflow.googleapis.com"

/-- main.py lines 183-208 (delete_webhook_credentials): get the webhook,
blank its generic-web-service username and password, submit a masked update
restricted to exactly those two paths, return the response. -/
def delete_webhook_credentials (webhook_name : String) (client_options : String)
    (s : ApiState) : Webhook × ApiState × List ApiCall :=
  let webhook_object := s.webhooks webhook_name
  let update_mask :=
    ["generic_web_service.username", "generic_web_service.password"]
  let webhook_object2 :=
    { webhook_object with
        generic_web_service :=
          { webhook_object.generic_web_service with
              username := "", password := "" } }
  let (response, s2) := api_update_webhook s webhook_object2 update_mask
  (response, s2,
    [ApiCall.getWebhook client_options webhook_name,
     ApiCall.updateWebhook client_options webhook_object2 update_mask])

/-- State-threaded list comprehension
`[delete_webhook_credentials(w.name, opts) for w in webhooks]`. -/
def delete_creds_each (names : List String) (client_options : String)
    (s : ApiState) : List Webhook × ApiState × List ApiCall :=
  match names with
  | [] => ([], s, [])
  | n :: rest =>
    let (w, s2, c1) := delete_webhook_credentials n client_options s
    let (ws, s3, c2) := delete_creds_each rest client_options s2
    (w :: ws, s3, c1 ++ c2)

/-- main.py lines 211-224 (webhook_cred_enforcer): list the agent's webhooks,
then delete credentials on each. -/
def webhook_cred_enforcer (agent_id : String) (client_options : String)
    (s : ApiState) : List Webhook × ApiState × List ApiCall :=
  let webhook_names := s.webhookList agent_id
  let (ws, s2, calls) := delete_creds_each webhook_names client_options s
  (ws, s2, ApiCall.listWebhooks client_options agent_id :: calls)

/-- main.py lines 132-162 (enforce_agent_logging): get the agent, build a
fresh AdvancedSettings whose logging settings carry the policy in both
toggles, overwrite the agent's advanced_settings with it, and submit an
update whose field mask is exactly ["advanced_settings"]. -/
def enforce_agent_logging (name : String) (policy : Bool)
    (client_options : String) (s : ApiState) :
    Agent × ApiState × List ApiCall :=
  let agent := s.agents name
  let logging_settings : LoggingSettings :=
    { enable_stackdriver_logging := policy, enable_interaction_logging := policy }
  let agent_advanced_settings : AdvancedSettings :=
    { logging_settings := logging_settings }
  let agent2 := { agent with advanced_settings := agent_advanced_settings }
  let update_mask := ["advanced_settings"]
  let (response, s2) := api_update_agent s agent2 update_mask
  (response, s2,
    [ApiCall.getAgent client_options name,
     ApiCall.updateAgent client_options agent2 update_mask])

/-- main.py lines 164-181 (enforce_agent_logging_es): builds a SetAgentRequest
with enable_logging := policy, parent := parent_name and field mask
["enable_logging"], and submits it. The ES store is outside the claims, so
only the wire call is recorded; the function returns Python None. -/
def enforce_agent_logging_es (parent_name : String) (_agent_name : String)
    (policy : Bool) (client_options : String) (s : ApiState) :
    ApiState × List ApiCall :=
  (s, [ApiCall.setAgentES client_options policy parent_name ["enable_logging"]])

/-- main.py lines 227-240 (list_agents): list the CX agents under a parent. -/
def list_agents (parent : String) (client_options : String) (s : ApiState) :
    List Agent × List ApiCall :=
  ((s.agentList parent).map s.agents, [ApiCall.listAgents client_options parent])

/-- State-threaded list comprehension
`[enforce_agent_logging(a.name, log_policy, opts) for a in agents]`. -/
def enforce_each_agent (names : List String) (policy : Bool)
    (client_options : String) (s : ApiState) :
    List Agent × ApiState × List ApiCall :=
  match names with
  | [] => ([], s, [])
  | n :: rest =>
    let (a, s2, c1) := enforce_agent_logging n policy client_options s
    let (l, s3, c2) := enforce_each_agent rest policy client_options s2
    (a :: l, s3, c1 ++ c2)

/-- main.py lines 242-252 (remove_fullfillment): builds an
UpdateFulfillmentRequest whose fulfillment has blank username and password and
the given name (all other request fields default), with a mask of exactly the
two credential paths, and submits it. -/
def remove_fullfillment (client_options : String) (name : String)
    (s : ApiState) : Fulfillment × ApiState × List ApiCall :=
  let req : Fulfillment :=
    { name := name
      generic_web_service :=
        { username := "", password := "", request_headers := "" } }
  let update_mask :=
    ["generic_web_service.username", "generic_web_service.password"]
  let (response, s2) := api_update_fulfillment s req update_mask
  (response, s2, [ApiCall.updateFulfillment client_options req update_mask])

/-- The guard chain of execute_policy_enforcer (main.py lines 59-111), as the
source writes it. Line 107 reads `elif "Fulfillments.UpdateFulfillment":` —
a truthiness test of a non-empty string constant, not a membership in
log_method — so that guard is a constant True. -/
inductive Branch where
  | webhookUpdate
  | webhookCreate
  | agentSettingsES
  | agentUpdate
  | agentCreate
  | fulfillmentUpdate
  | unhandled
deriving DecidableEq

/-- Which branch of execute_policy_enforcer a given log method selects,
mirroring the if/elif chain of main.py lines 59-111 guard by guard. -/
def dispatchBranch (log_method : String) : Branch :=
  if pyIn "Webhooks.UpdateWebhook" log_method then Branch.webhookUpdate
  else if pyIn "Webhooks.CreateWebhook" log_method then Branch.webhookCreate
  else if pyIn "Agents.UpdateAgentSettings" log_method then Branch.agentSettingsES
  else if pyIn "Agents.UpdateAgent" log_method then Branch.agentUpdate
  else if pyIn "Agents.CreateAgent" log_method then Branch.agentCreate
  else if pyTruthy "Fulfillments.UpdateFulfillment" then Branch.fulfillmentUpdate
  else Branch.unhandled

/-- main.py lines 49-113 (execute_policy_enforcer). Dictionary accesses that
can raise KeyError/IndexError are modelled by the `Option` fields of
`PubsubJson`; each branch's result, final API state and call trace are
returned. The ES branch (lines 73-77) and the fulfillment branch (lines
107-110) have no return statement, hence `Ret.noneVal`. -/
def execute_policy_enforcer (log_method : String) (client_options : String)
    (pubsub_json : PubsubJson) (s : ApiState) :
    Except PyErr Ret × ApiState × List ApiCall :=
  if pyIn "Webhooks.UpdateWebhook" log_method then
    match pubsub_json.resourceName with
    | none => (Except.error (PyErr.keyError "resourceName"), s, [])
    | some webhook_name =>
      let (webhook_updated, s2, calls) :=
        delete_webhook_credentials webhook_name client_options s
      (Except.ok (Ret.webhook webhook_updated), s2, calls)
  else if pyIn "Webhooks.CreateWebhook" log_method then
    match pubsub_json.resourceName with
    | none => (Except.error (PyErr.keyError "resourceName"), s, [])
    | some agent_id =>
      let (enforced_webhooks, s2, calls) :=
        webhook_cred_enforcer agent_id client_options s
      (Except.ok (Ret.webhooks enforced_webhooks), s2, calls)
  else if pyIn "Agents.UpdateAgentSettings" log_method then
    match pubsub_json.resourceName with
    | none => (Except.error (PyErr.keyError "resourceName"), s, [])
    | some agent_name =>
      match pySplit '/' agent_name with
      | p0 :: p1 :: _ =>
        let parent_name := p0 ++ "/" ++ p1
        let (s2, calls) :=
          enforce_agent_logging_es parent_name agent_name log_policy
            client_options s
        (Except.ok Ret.noneVal, s2, calls)
      | _ => (Except.error PyErr.indexError, s, [])
  else if pyIn "Agents.UpdateAgent" log_method then
    match pubsub_json.resourceName with
    | none => (Except.error (PyErr.keyError "resourceName"), s, [])
    | some agent_id =>
      let (enforced_agent, s2, calls) :=
        enforce_agent_logging agent_id log_policy client_options s
      (Except.ok (Ret.agent enforced_agent), s2, calls)
  else if pyIn "Agents.CreateAgent" log_method then
    match pubsub_json.requestParent with
    | none => (Except.error (PyErr.keyError "parent"), s, [])
    | some parent =>
      let (agents, listCalls) := list_agents parent client_options s
      let (enforced_agents, s2, calls) :=
        enforce_each_agent (agents.map Agent.name) log_policy client_options s
      (Except.ok (Ret.agents enforced_agents), s2, listCalls ++ calls)
  else if pyTruthy "Fulfillments.UpdateFulfillment" then
    match pubsub_json.resourceName with
    | none => (Except.error (PyErr.keyError "resourceName"), s, [])
    | some fullfillment_name =>
      let (_, s2, calls) := remove_fullfillment client_options fullfillment_name s
      (Except.ok Ret.noneVal, s2, calls)
  else
    (Except.ok Ret.falseVal, s, [])

/-- main.py lines 25-46 (main_function). `decoded` is the outcome of the
base64/UTF-8/JSON decoding of event["data"] (library calls; `none` models any
of their failures). On success the function returns ("OK", 200); the bare
`except Exception: raise` re-raises every error unchanged. -/
def main_function (decoded : Option PubsubJson) (s : ApiState) :
    Except PyErr (String × Nat) × ApiState × List ApiCall :=
  match decoded with
  | none => (Except.error PyErr.malformedEvent, s, [])
  | some pubsub_json =>
    match pubsub_json.method with
    | none => (Except.error (PyErr.keyError "method"), s, [])
    | some log_method =>
      match pubsub_json.currentLocations with
      | none => (Except.error (PyErr.keyError "currentLocations"), s, [])
      | some [] => (Except.error PyErr.indexError, s, [])
      | some (region :: _) =>
        let client_options := get_client_option region
        let (r, s2, calls) :=
          execute_policy_enforcer log_method client_options pubsub_json s
        match r with
        | Except.error e => (Except.error e, s2, calls)
        | Except.ok _ => (Except.ok ("OK", 200), s2, calls)

/-! Concrete inputs used by counterexamples and witnesses. -/

/-- A concrete API state: every agent starts with both logging toggles off and
a non-empty audio-export destination in its advanced settings; every webhook
and fulfillment starts with non-empty credentials. -/
def sampleState : ApiState :=
  { agents := fun n =>
      { name := n
        display_name := "My agent"
        advanced_settings :=
          { logging_settings :=
              { enable_stackdriver_logging := false
                enable_interaction_logging := false }
            audio_export_gcs_destination := "gs://bucket/audio" } }
    webhooks := fun n =>
      { name := n
        generic_web_service :=
          { username := "user", password := "secret"
            request_headers := "auth-header" }
        display_name := "My webhook" }
    fulfillments := fun n =>
      { name := n
        generic_web_service :=
          { username := "user", password := "secret", request_headers := "hdr" } }
    agentList := fun p =>
      if p = "projects/p/locations/l" then
        ["projects/p/locations/l/agents/a1",
         "projects/p/locations/l/agents/a2",
         "projects/p/locations/l/agents/a3"]
      else []
    webhookList := fun _ => [] }

/-- Like `sampleState`, but every webhook already has empty credentials. -/
def cleanState : ApiState :=
  { sampleState with
      webhooks := fun n =>
        { name := n
          generic_web_service :=
            { username := "", password := "", request_headers := "auth-header" }
          display_name := "My webhook" } }

/-- A well-formed decoded event carrying every field the branches read. -/
def evGeneric : PubsubJson :=
  { method := some "google.cloud.dialogflow.cx.v3.Webhooks.UpdateWebhook"
    currentLocations := some ["global"]
    resourceName := some "projects/p/locations/l/agents/a/webhooks/w"
    requestParent := some "projects/p/locations/l" }

/-- A decoded event whose currentLocations array is present but empty. -/
def evEmptyLocations : PubsubJson :=
  { evGeneric with currentLocations := some [] }

/-- A decoded event whose currentLocations path is absent. -/
def evNoLocations : PubsubJson :=
  { evGeneric with currentLocations := none }

/-- Claim C3, as the spec words it: the return value is a modified resource, a
list of modified resources, or the boolean False sentinel. Written from the
spec for comparison against the embedded code. -/
def retIsResourceListOrFalse : Ret → Bool
  | Ret.webhook _ => true
  | Ret.webhooks _ => true
  | Ret.agent _ => true
  | Ret.agents _ => true
  | Ret.falseVal => true
  | Ret.noneVal => false

/-- The amended shape of the return value: a resource, a list of resources, or
Python None; never the False sentinel. -/
def retIsResourceListOrNone : Ret → Bool
  | Ret.webhook _ => true
  | Ret.webhooks _ => true
  | Ret.agent _ => true
  | Ret.agents _ => true
  | Ret.falseVal => false
  | Ret.noneVal => true

/-- True on the CX Agents-service calls (get_agent / update_agent). -/
def isCxAgentCall : ApiCall → Bool
  | ApiCall.getAgent _ _ => true
  | ApiCall.updateAgent _ _ _ => true
  | _ => false

/-- True exactly on get_agent calls. -/
def isGetAgentCall : ApiCall → Bool
  | ApiCall.getAgent _ _ => true
  | _ => false

/-- True exactly on update_agent calls. -/
def isUpdateAgentCall : ApiCall → Bool
  | ApiCall.updateAgent _ _ _ => true
  | _ => false

/-- Holds of a call unless it is an update_agent whose request does not set
both logging toggles to `policy` under the mask ["advanced_settings"]. -/
def updateSetsPolicy (policy : Bool) : ApiCall → Bool
  | ApiCall.updateAgent _ a mask =>
      (a.advanced_settings.logging_settings.enable_stackdriver_logging == policy)
      && (a.advanced_settings.logging_settings.enable_interaction_logging == policy)
      && (mask == ["advanced_settings"])
  | _ => true

end PolicyEnforcer

namespace PolicyEnforcer

/-- Claim C1 (code bug evidence): on the concrete operation id
"google.cloud.dialogflow.v2.Projects.GetProject", which contains none of the
dispatch markers, execute_policy_enforcer does NOT return False with no API
call: because line 107 of main.py tests the constant string
"Fulfillments.UpdateFulfillment" for truthiness instead of membership in
log_method, the fulfillment branch runs, one remote update_fulfillment call
is issued, and Python None is returned. -/
theorem unmatched_method_runs_fulfillment_branch :
    dispatchBranch "google.cloud.dialogflow.v2.Projects.GetProject" =
      Branch.fulfillmentUpdate
    ∧ (execute_policy_enforcer "google.cloud.dialogflow.v2.Projects.GetProject"
        "dialogflow.googleapis.com" evGeneric sampleState).1 =
      Except.ok Ret.noneVal
    ∧ (execute_policy_enforcer "google.cloud.dialogflow.v2.Projects.GetProject"
        "dialogflow.googleapis.com" evGeneric sampleState).2.2 =
      [ApiCall.updateFulfillment "dialogflow.googleapis.com"
        { name := "projects/p/locations/l/agents/a/webhooks/w"
          generic_web_service :=
            { username := "", password := "", request_headers := "" } }
        ["generic_web_service.username", "generic_web_service.password"]] := by
  refine ⟨rfl, rfl, rfl⟩

/-- Claim C2 (counterexample): an event whose currentLocations array is empty
is not treated as having a missing region — main_function raises IndexError
before dispatching, performing no remote call; likewise an absent
currentLocations path raises KeyError. The webhook-update method of this
event never runs. -/
theorem empty_locations_raises_not_missing :
    main_function (some evEmptyLocations) sampleState =
      (Except.error PyErr.indexError, sampleState, [])
    ∧ main_function (some evNoLocations) sampleState =
      (Except.error (PyErr.keyError "currentLocations"), sampleState, []) := by
  refine ⟨rfl, rfl⟩

/-- Claim C2 (amended): resolving the literal region "global" yields the bare
base domain; any other region r yields r ++ "-" ++ base domain; and an event
whose currentLocations array is absent or empty makes main_function raise
(KeyError, resp. IndexError) before any remote call, rather than being
treated as a missing region. -/
theorem get_client_option_region_resolution :
    get_client_option "global" = "dialogflow.googleapis.com"
    ∧ (∀ r : String, r ≠ "global" →
        get_client_option r = r ++ "-" ++ "dialogflow.googleapis.com")
    ∧ (∀ (ev : PubsubJson) (s : ApiState) (m : String),
        ev.method = some m → ev.currentLocations = some [] →
        main_function (some ev) s = (Except.error PyErr.indexError, s, []))
    ∧ (∀ (ev : PubsubJson) (s : ApiState) (m : String),
        ev.method = some m → ev.currentLocations = none →
        main_function (some ev) s =
          (Except.error (PyErr.keyError "currentLocations"), s, [])) := by
  refine ⟨rfl, ?_, ?_, ?_⟩
  · intro r hr
    simp [get_client_option, hr]
  · intro ev s m hm hl
    simp [main_function, hm, hl]
  · intro ev s m hm hl
    simp [main_function, hm, hl]

/-- Witness for the amended C2 theorem at concrete inputs. -/
theorem get_client_option_region_resolution_witness :
    get_client_option "us-central1" =
      "us-central1" ++ "-" ++ "dialogflow.googleapis.com"
    ∧ main_function (some evEmptyLocations) sampleState =
      (Except.error PyErr.indexError, sampleState, [])
    ∧ main_function (some evNoLocations) sampleState =
      (Except.error (PyErr.keyError "currentLocations"), sampleState, []) := by
  refine ⟨?_, ?_, ?_⟩
  · exact get_client_option_region_resolution.2.1 "us-central1" (by decide)
  · exact get_client_option_region_resolution.2.2.1 evEmptyLocations sampleState
      "google.cloud.dialogflow.cx.v3.Webhooks.UpdateWebhook" rfl rfl
  · exact get_client_option_region_resolution.2.2.2 evNoLocations sampleState
      "google.cloud.dialogflow.cx.v3.Webhooks.UpdateWebhook" rfl rfl

/-- Python's substring test agrees with list-infix containment. -/
theorem pyInAux_eq_true_iff (need : List Char) :
    ∀ hay : List Char, pyInAux need hay = true ↔ need <:+: hay := by
  intro hay
  induction hay with
  | nil =>
    simp [pyInAux, List.infix_nil, List.isEmpty_iff]
  | cons a rest ih =>
    simp [pyInAux, ih, List.infix_cons_iff, List.isPrefixOf_iff_prefix]

/-- `pyIn` characterised through infix containment of the character lists. -/
theorem pyIn_infix_iff (sub s : String) :
    pyIn sub s = true ↔ sub.toList <:+: s.toList :=
  pyInAux_eq_true_iff _ _

/-- Every call issued by the per-webhook credential sweep targets the
Webhooks service; none is a CX Agents-service call. -/
theorem delete_creds_each_no_agent_calls (names : List String) (opts : String) :
    ∀ (s : ApiState) (c : ApiCall), c ∈ (delete_creds_each names opts s).2.2 →
      isCxAgentCall c = false := by
  induction names with
  | nil =>
    intro s c hc
    simp [delete_creds_each] at hc
  | cons n rest ih =>
    intro s c hc
    simp [delete_creds_each, delete_webhook_credentials,
      api_update_webhook] at hc
    rcases hc with hc | hc | hc
    · subst hc; rfl
    · subst hc; rfl
    · exact ih _ c hc

/-- Claim C3 (counterexample): on a legacy agent-settings event the handler
succeeds with Python None, which is neither a modified resource, nor a list
of modified resources, nor the False sentinel. -/
theorem settings_event_returns_python_none :
    (execute_policy_enforcer
        "google.cloud.dialogflow.v2.Agents.UpdateAgentSettings"
        "dialogflow.googleapis.com" evGeneric sampleState).1 =
      Except.ok Ret.noneVal
    ∧ retIsResourceListOrFalse Ret.noneVal = false := by
  refine ⟨rfl, rfl⟩

/-- Claim C3 (amended): whenever execute_policy_enforcer succeeds, its return
value is a modified resource, a list of modified resources, or Python None
(the legacy agent-settings and fulfillment branches have no return
statement); the False sentinel of the unmatched-operation branch is never
returned, because the fulfillment guard on line 107 is a constant True. -/
theorem execute_result_forms :
    ∀ (m opts : String) (ev : PubsubJson) (s : ApiState) (r : Ret),
      (execute_policy_enforcer m opts ev s).1 = Except.ok r →
      retIsResourceListOrNone r = true := by
  intro m opts ev s r h
  have h6 : pyTruthy "Fulfillments.UpdateFulfillment" = true := rfl
  by_cases h1 : pyIn "Webhooks.UpdateWebhook" m = true
  · rcases hrn : ev.resourceName with _ | n
    · simp [execute_policy_enforcer, h1, hrn] at h
    · simp [execute_policy_enforcer, h1, hrn] at h
      subst h
      rfl
  · by_cases h2 : pyIn "Webhooks.CreateWebhook" m = true
    · rcases hrn : ev.resourceName with _ | n
      · simp [execute_policy_enforcer, h1, h2, hrn] at h
      · simp [execute_policy_enforcer, h1, h2, hrn] at h
        subst h
        rfl
    · by_cases h3 : pyIn "Agents.UpdateAgentSettings" m = true
      · rcases hrn : ev.resourceName with _ | n
        · simp [execute_policy_enforcer, h1, h2, h3, hrn] at h
        · rcases hsp : pySplit '/' n with _ | ⟨p0, _ | ⟨p1, ps⟩⟩ <;>
            simp [execute_policy_enforcer, h1, h2, h3, hrn, hsp] at h
          subst h
          rfl
      · by_cases h4 : pyIn "Agents.UpdateAgent" m = true
        · rcases hrn : ev.resourceName with _ | n
          · simp [execute_policy_enforcer, h1, h2, h3, h4, hrn] at h
          · simp [execute_policy_enforcer, h1, h2, h3, h4, hrn] at h
            subst h
            rfl
        · by_cases h5 : pyIn "Agents.CreateAgent" m = true
          · rcases hrp : ev.requestParent with _ | p
            · simp [execute_policy_enforcer, h1, h2, h3, h4, h5, hrp] at h
            · simp [execute_policy_enforcer, h1, h2, h3, h4, h5, hrp] at h
              subst h
              rfl
          · rcases hrn : ev.resourceName with _ | n
            · simp [execute_policy_enforcer, h1, h2, h3, h4, h5, h6, hrn] at h
            · simp [execute_policy_enforcer, h1, h2, h3, h4, h5, h6, hrn] at h
              subst h
              rfl

/-- Witness for the amended C3 theorem: the concrete agent-settings run from
the counterexample, pushed through the amended statement. -/
theorem execute_result_forms_witness :
    retIsResourceListOrNone Ret.noneVal = true := by
  exact execute_result_forms
    "google.cloud.dialogflow.v2.Agents.UpdateAgentSettings"
    "dialogflow.googleapis.com" evGeneric sampleState Ret.noneVal rfl

/-- Claim C4: any operation id containing "Agents.UpdateAgentSettings" also
contains the agent-update marker "Agents.UpdateAgent"; the guard chain never
selects the CX agent-update branch for it, and (the two webhook markers
preceding it in the fixed first-match-wins ordering being absent) selects
the legacy ES agent-logging branch; accordingly the execution issues no CX
Agents-service call at all. -/
theorem settings_marker_shadows_agent_update :
    ∀ m : String, pyIn "Agents.UpdateAgentSettings" m = true →
      pyIn "Agents.UpdateAgent" m = true
      ∧ dispatchBranch m ≠ Branch.agentUpdate
      ∧ (pyIn "Webhooks.UpdateWebhook" m = false →
         pyIn "Webhooks.CreateWebhook" m = false →
         dispatchBranch m = Branch.agentSettingsES)
      ∧ (∀ (opts : String) (ev : PubsubJson) (s : ApiState),
          ((execute_policy_enforcer m opts ev s).2.2.all
            fun c => !isCxAgentCall c) = true) := by
  intro m h
  have hsub : pyIn "Agents.UpdateAgent" m = true := by
    rw [pyIn_infix_iff] at h ⊢
    exact List.IsInfix.trans
      ((pyIn_infix_iff "Agents.UpdateAgent" "Agents.UpdateAgentSettings").1 rfl) h
  refine ⟨hsub, ?_, ?_, ?_⟩
  · intro hcontra
    by_cases h1 : pyIn "Webhooks.UpdateWebhook" m = true <;>
      by_cases h2 : pyIn "Webhooks.CreateWebhook" m = true <;>
      simp [dispatchBranch, h1, h2, h] at hcontra
  · intro h1 h2
    simp [dispatchBranch, h1, h2, h]
  · intro opts ev s
    by_cases h1 : pyIn "Webhooks.UpdateWebhook" m = true
    · rcases hrn : ev.resourceName with _ | n
      · simp [execute_policy_enforcer, h1, hrn]
      · simp [execute_policy_enforcer, h1, hrn, delete_webhook_credentials,
          api_update_webhook, isCxAgentCall]
    · by_cases h2 : pyIn "Webhooks.CreateWebhook" m = true
      · rcases hrn : ev.resourceName with _ | n
        · simp [execute_policy_enforcer, h1, h2, hrn]
        · simp [execute_policy_enforcer, h1, h2, hrn, webhook_cred_enforcer,
            isCxAgentCall]
          intro x hx
          exact delete_creds_each_no_agent_calls _ _ _ x hx
      · rcases hrn : ev.resourceName with _ | n
        · simp [execute_policy_enforcer, h1, h2, h, hrn]
        · rcases hsp : pySplit '/' n with _ | ⟨p0, _ | ⟨p1, ps⟩⟩ <;>
            simp [execute_policy_enforcer, h1, h2, h, hrn, hsp,
              enforce_agent_logging_es, isCxAgentCall]

/-- Witness for C4 on the realistic ES operation id. -/
theorem settings_marker_shadows_agent_update_witness :
    pyIn "Agents.UpdateAgent"
      "google.cloud.dialogflow.v2.Agents.UpdateAgentSettings" = true
    ∧ dispatchBranch "google.cloud.dialogflow.v2.Agents.UpdateAgentSettings" ≠
        Branch.agentUpdate
    ∧ dispatchBranch "google.cloud.dialogflow.v2.Agents.UpdateAgentSettings" =
        Branch.agentSettingsES
    ∧ ((execute_policy_enforcer
          "google.cloud.dialogflow.v2.Agents.UpdateAgentSettings"
          "dialogflow.googleapis.com" evGeneric sampleState).2.2.all
        fun c => !isCxAgentCall c) = true := by
  have H := settings_marker_shadows_agent_update
    "google.cloud.dialogflow.v2.Agents.UpdateAgentSettings" rfl
  exact ⟨H.1, H.2.1, H.2.2.1 rfl rfl,
    H.2.2.2 "dialogflow.googleapis.com" evGeneric sampleState⟩

/-- Claim C5: on any operation id containing "Webhooks.UpdateWebhook" with
resource name n, the run consists of exactly one get_webhook call on n
followed by exactly one update_webhook call whose request webhook has empty
username and password, under the field mask exactly
["generic_web_service.username", "generic_web_service.password"]; the
response and the stored webhook end with both credential fields empty. -/
theorem webhook_update_scrubs_credentials (m opts n : String)
    (ev : PubsubJson) (s : ApiState)
    (h1 : pyIn "Webhooks.UpdateWebhook" m = true)
    (h2 : ev.resourceName = some n) :
    let w2 : Webhook :=
      { s.webhooks n with
          generic_web_service :=
            { (s.webhooks n).generic_web_service with
                username := "", password := "" } }
    let mask := ["generic_web_service.username", "generic_web_service.password"]
    let response := applyWebhookMask (s.webhooks w2.name) w2 mask
    (execute_policy_enforcer m opts ev s).2.2 =
      [ApiCall.getWebhook opts n, ApiCall.updateWebhook opts w2 mask]
    ∧ (execute_policy_enforcer m opts ev s).1 =
        Except.ok (Ret.webhook response)
    ∧ w2.generic_web_service.username = ""
    ∧ w2.generic_web_service.password = ""
    ∧ response.generic_web_service.username = ""
    ∧ response.generic_web_service.password = ""
    ∧ ((execute_policy_enforcer m opts ev s).2.1).webhooks =
        setStore s.webhooks w2.name response := by
  intro w2 mask response
  refine ⟨?_, ?_, rfl, rfl, rfl, rfl, ?_⟩ <;>
    simp [execute_policy_enforcer, h1, h2, delete_webhook_credentials,
      api_update_webhook]

/-- Witness for C5: a concrete webhook-update event against the sample state,
whose stored webhook has username "user" and password "secret". -/
theorem webhook_update_scrubs_credentials_witness :
    (execute_policy_enforcer "google.cloud.dialogflow.cx.v3.Webhooks.UpdateWebhook"
        "dialogflow.googleapis.com" evGeneric sampleState).2.2 =
      [ApiCall.getWebhook "dialogflow.googleapis.com"
        "projects/p/locations/l/agents/a/webhooks/w",
       ApiCall.updateWebhook "dialogflow.googleapis.com"
        { name := "projects/p/locations/l/agents/a/webhooks/w"
          generic_web_service :=
            { username := "", password := "", request_headers := "auth-header" }
          display_name := "My webhook" }
        ["generic_web_service.username", "generic_web_service.password"]]
    ∧ (execute_policy_enforcer "google.cloud.dialogflow.cx.v3.Webhooks.UpdateWebhook"
        "dialogflow.googleapis.com" evGeneric sampleState).1 =
      Except.ok (Ret.webhook
        { name := "projects/p/locations/l/agents/a/webhooks/w"
          generic_web_service :=
            { username := "", password := "", request_headers := "auth-header" }
          display_name := "My webhook" }) := by
  have H := webhook_update_scrubs_credentials
    "google.cloud.dialogflow.cx.v3.Webhooks.UpdateWebhook"
    "dialogflow.googleapis.com" "projects/p/locations/l/agents/a/webhooks/w"
    evGeneric sampleState rfl rfl
  exact ⟨H.1, H.2.1⟩

/-- Claim C8: when decoding of the envelope's data field fails (invalid
base64, UTF-8 or JSON), main_function returns the decode error with an empty
remote-call trace and an unchanged API state: the error is raised before any
remote call and propagates to the caller unsuppressed. -/
theorem malformed_event_fails_before_any_call :
    ∀ s : ApiState,
      main_function none s = (Except.error PyErr.malformedEvent, s, []) := by
  intro s
  rfl

/-- Claim C10: enforce_agent_logging replaces the whole advanced_settings
message: the response's advanced settings consist of exactly the new logging
settings with every non-logging sub-field (audio_export_gcs_destination) at
its default; the stored agent is overwritten with that same response. -/
theorem enforce_agent_logging_replaces_advanced_settings :
    ∀ (name : String) (policy : Bool) (opts : String) (s : ApiState),
      (enforce_agent_logging name policy opts s).1.advanced_settings =
        { logging_settings :=
            { enable_stackdriver_logging := policy
              enable_interaction_logging := policy }
          audio_export_gcs_destination := "" }
      ∧ ((enforce_agent_logging name policy opts s).2.1).agents
            ((s.agents name).name) =
          (enforce_agent_logging name policy opts s).1 := by
  intro name policy opts s
  constructor
  · rfl
  · simp [enforce_agent_logging, api_update_agent, setStore]

/-- Claim C6: enforce_agent_logging issues exactly one get_agent and one
update_agent call; the update request sets both logging toggles to the
desired policy and carries the field mask exactly ["advanced_settings"]; and
under the masked-update semantics the response (and stored agent) keeps its
name and display_name (the fields outside advanced settings) unchanged,
while the rest of the store is untouched apart from the updated agent. -/
theorem enforce_agent_logging_scoped_update :
    ∀ (name : String) (policy : Bool) (opts : String) (s : ApiState),
      (enforce_agent_logging name policy opts s).2.2 =
        [ApiCall.getAgent opts name,
         ApiCall.updateAgent opts
           { s.agents name with
               advanced_settings :=
                 { logging_settings :=
                     { enable_stackdriver_logging := policy
                       enable_interaction_logging := policy } } }
           ["advanced_settings"]]
      ∧ (enforce_agent_logging name policy opts s).1.name =
          (s.agents (s.agents name).name).name
      ∧ (enforce_agent_logging name policy opts s).1.display_name =
          (s.agents (s.agents name).name).display_name
      ∧ (enforce_agent_logging name policy opts s).1.advanced_settings.logging_settings =
          { enable_stackdriver_logging := policy
            enable_interaction_logging := policy }
      ∧ ((enforce_agent_logging name policy opts s).2.1).agents =
          setStore s.agents (s.agents name).name
            (enforce_agent_logging name policy opts s).1 := by
  intro name policy opts s
  refine ⟨rfl, rfl, rfl, rfl, rfl⟩

/-- Shape of the state-threaded fan-out over a list of agent names: one
result per name, exactly one get_agent and one update_agent call per name,
and every update_agent request sets both logging toggles to the policy under
the mask ["advanced_settings"]. -/
theorem enforce_each_agent_spec (policy : Bool) (opts : String) :
    ∀ (names : List String) (s : ApiState),
      (enforce_each_agent names policy opts s).1.length = names.length
      ∧ (enforce_each_agent names policy opts s).2.2.countP isGetAgentCall =
          names.length
      ∧ (enforce_each_agent names policy opts s).2.2.countP isUpdateAgentCall =
          names.length
      ∧ ∀ c ∈ (enforce_each_agent names policy opts s).2.2,
          updateSetsPolicy policy c = true := by
  intro names
  induction names with
  | nil =>
    intro s
    refine ⟨rfl, rfl, rfl, ?_⟩
    intro c hc
    simp [enforce_each_agent] at hc
  | cons n rest ih =>
    intro s
    refine ⟨?_, ?_, ?_, ?_⟩
    · simp [enforce_each_agent, enforce_agent_logging, api_update_agent,
        (ih _).1]
    · simp [enforce_each_agent, enforce_agent_logging, api_update_agent,
        List.countP_cons, isGetAgentCall, isUpdateAgentCall, (ih _).2.1]
    · simp [enforce_each_agent, enforce_agent_logging, api_update_agent,
        List.countP_cons, isGetAgentCall, isUpdateAgentCall, (ih _).2.2.1]
    · intro c hc
      simp [enforce_each_agent, enforce_agent_logging,
        api_update_agent] at hc
      rcases hc with hc | hc | hc
      · subst hc; rfl
      · subst hc; simp [updateSetsPolicy]
      · exact (ih _).2.2.2 c hc

/-- Claim C7: on any operation id containing "Agents.CreateAgent" (and, per
the first-match-wins ordering, none of the four earlier markers), with
request parent p, the run lists the agents under p and — with N the number of
agents listed — issues exactly N get_agent and N update_agent calls, every
update_agent request setting both logging toggles to the configured policy
under the mask ["advanced_settings"], and returns a list of length N. -/
theorem create_agent_fans_out (m opts p : String) (ev : PubsubJson)
    (s : ApiState)
    (hc : pyIn "Agents.CreateAgent" m = true)
    (h1 : pyIn "Webhooks.UpdateWebhook" m = false)
    (h2 : pyIn "Webhooks.CreateWebhook" m = false)
    (h3 : pyIn "Agents.UpdateAgentSettings" m = false)
    (h4 : pyIn "Agents.UpdateAgent" m = false)
    (hp : ev.requestParent = some p) :
    (execute_policy_enforcer m opts ev s).2.2.countP isGetAgentCall =
      (s.agentList p).length
    ∧ (execute_policy_enforcer m opts ev s).2.2.countP isUpdateAgentCall =
        (s.agentList p).length
    ∧ (∀ c ∈ (execute_policy_enforcer m opts ev s).2.2,
        updateSetsPolicy log_policy c = true)
    ∧ (execute_policy_enforcer m opts ev s).1 =
        Except.ok (Ret.agents
          (enforce_each_agent (((s.agentList p).map s.agents).map Agent.name)
            log_policy opts s).1)
    ∧ (enforce_each_agent (((s.agentList p).map s.agents).map Agent.name)
        log_policy opts s).1.length = (s.agentList p).length := by
  have H := enforce_each_agent_spec log_policy opts
    (((s.agentList p).map s.agents).map Agent.name) s
  refine ⟨?_, ?_, ?_, ?_, ?_⟩
  · simp [execute_policy_enforcer, hc, h1, h2, h3, h4, hp, list_agents,
      List.countP_cons, isGetAgentCall]
    simpa using H.2.1
  · simp [execute_policy_enforcer, hc, h1, h2, h3, h4, hp, list_agents,
      List.countP_cons, isUpdateAgentCall]
    simpa using H.2.2.1
  · intro c hcall
    simp [execute_policy_enforcer, hc, h1, h2, h3, h4, hp,
      list_agents] at hcall
    have H3 := H.2.2.2
    simp only [List.map_map] at H3
    rcases hcall with hcall | hcall
    · subst hcall; rfl
    · exact H3 c hcall
  · simp [execute_policy_enforcer, hc, h1, h2, h3, h4, hp, list_agents]
  · simpa using H.1

/-- Witness for C7: a concrete create-agent event over the sample state, whose
parent "projects/p/locations/l" lists three agents. -/
theorem create_agent_fans_out_witness :
    (execute_policy_enforcer "google.cloud.dialogflow.cx.v3.Agents.CreateAgent"
        "dialogflow.googleapis.com" evGeneric sampleState).2.2.countP
      isGetAgentCall = 3
    ∧ (execute_policy_enforcer "google.cloud.dialogflow.cx.v3.Agents.CreateAgent"
        "dialogflow.googleapis.com" evGeneric sampleState).2.2.countP
      isUpdateAgentCall = 3
    ∧ (enforce_each_agent
        (((sampleState.agentList "projects/p/locations/l").map
          sampleState.agents).map Agent.name)
        log_policy "dialogflow.googleapis.com" sampleState).1.length = 3 := by
  have H := create_agent_fans_out
    "google.cloud.dialogflow.cx.v3.Agents.CreateAgent"
    "dialogflow.googleapis.com" "projects/p/locations/l" evGeneric sampleState
    rfl rfl rfl rfl rfl rfl
  exact ⟨H.1, H.2.1, H.2.2.2.2⟩

/-- Claim C9: delete_webhook_credentials is idempotent — on a webhook whose
generic-web-service username and password are already empty (stored under its
own name), the action succeeds, returns the webhook unchanged, and leaves the
whole webhook store pointwise unchanged. -/
theorem delete_webhook_credentials_idempotent (n opts : String) (s : ApiState)
    (hname : (s.webhooks n).name = n)
    (hu : (s.webhooks n).generic_web_service.username = "")
    (hpw : (s.webhooks n).generic_web_service.password = "") :
    (delete_webhook_credentials n opts s).1 = s.webhooks n
    ∧ ∀ k, ((delete_webhook_credentials n opts s).2.1).webhooks k =
        s.webhooks k := by
  rcases hsw : s.webhooks n with ⟨nm, ⟨u, pw, hd⟩, dn⟩
  rw [hsw] at hname hu hpw
  simp only at hname hu hpw
  subst hu
  subst hpw
  rw [hname] at hsw
  constructor
  · simp [delete_webhook_credentials, api_update_webhook, applyWebhookMask,
      hsw, hname]
  · intro k
    by_cases hk : k = n
    · subst hk
      simp [delete_webhook_credentials, api_update_webhook, applyWebhookMask,
        setStore, hsw, hname]
    · simp [delete_webhook_credentials, api_update_webhook, applyWebhookMask,
        setStore, hsw, hname, hk]

/-- Witness for C9: the clean sample state, whose webhooks all have empty
credentials already. -/
theorem delete_webhook_credentials_idempotent_witness :
    (delete_webhook_credentials "projects/p/locations/l/agents/a/webhooks/w"
        "dialogflow.googleapis.com" cleanState).1 =
      cleanState.webhooks "projects/p/locations/l/agents/a/webhooks/w"
    ∧ ((delete_webhook_credentials "projects/p/locations/l/agents/a/webhooks/w"
        "dialogflow.googleapis.com" cleanState).2.1).webhooks
        "projects/other" =
      cleanState.webhooks "projects/other" := by
  have H := delete_webhook_credentials_idempotent
    "projects/p/locations/l/agents/a/webhooks/w" "dialogflow.googleapis.com"
    cleanState rfl rfl rfl
  exact ⟨H.1, H.2 "projects/other"⟩

end PolicyEnforcer
